import Mathlib

/-!
Verification development for the MorgHTTPClient socket polling client
(src/src/utilities/socket_data.py). The Python module is shallowly embedded:
the HTTP transport is abstracted as an outcome value handed to each
operation, Python exceptions that the module itself raises and catches
become an Except value, a returned None becomes an explicit no-value
result, and print calls become an explicit list of log lines returned
alongside the result.
-/

namespace Socket

/-- Embedding of the SocketError exception class: it carries the
human-readable cause and the failing endpoint identifier. -/
structure SocketErr where
  error_message : String
  endpoint : String
deriving Repr, DecidableEq

/-- Embedding of SocketError.get_error: the printed representation of a
fault, message followed by the offending endpoint. -/
def SocketErr.get_error (e : SocketErr) : String :=
  e.error_message ++ " endpoint: \x27" ++ e.endpoint ++ "\x27"

/-- Outcome of the underlying HTTP GET issued by requests.get, as seen
by the code paths that produce a SocketError or a return value: either a
transport-level connection failure (the requests ConnectionError, which
covers host-unreachable and the connect phase of the timeout) or a
response with a status code and an already-parsed JSON body of type
alpha. The requests ReadTimeout exception — the configured timeout
elapsing while the response is read — is not a ConnectionError and never
reaches these paths; its dispatch is embedded separately by
do_get_on_exc below. -/
inductive HttpOutcome (α : Type) where
  | connectionFailure
  | response (status_code : Nat) (body : α)
deriving Repr, DecidableEq

/-- The four endpoint path segments set in Socket.__init__. -/
def inv_endpoint : String := "inv"

/-- Stats endpoint path segment from Socket.__init__. -/
def stats_endpoint : String := "stats"

/-- Equipment endpoint path segment from Socket.__init__. -/
def equip_endpoint : String := "equip"

/-- Events endpoint path segment from Socket.__init__. -/
def events_endpoint : String := "events"

/-- The configured endpoints, in the attribute order of Socket.__init__;
this is the slice list(self.__dict__.values())[1:-1] that
Socket.__test_endpoints iterates. -/
def endpoints : List String :=
  [inv_endpoint, stats_endpoint, equip_endpoint, events_endpoint]

/-- Embedding of Socket.__do_get over an abstract HTTP outcome: a
connection failure raises SocketError with message Unable to reach socket;
a non-200 status raises SocketError (status 204 with the
endpoint-not-available message, any other status with the
unexpected-status message); a 200 response returns the parsed body
unchanged. -/
def do_get {α : Type} (endpoint : String) (out : HttpOutcome α) :
    Except SocketErr α :=
  match out with
  | .connectionFailure => .error ⟨"Unable to reach socket", endpoint⟩
  | .response status_code body =>
    if status_code ≠ 200 then
      if status_code = 204 then
        .error ⟨"Endpoint not available, make sure you are fully logged in, status code: "
                  ++ toString status_code, endpoint⟩
      else
        .error ⟨"Unable to reach socket, status code: " ++ toString status_code, endpoint⟩
    else
      .ok body

/-- Spec vocabulary: the TransportFault raised on connection failure. -/
def transport_fault (endpoint : String) : SocketErr :=
  ⟨"Unable to reach socket", endpoint⟩

/-- Spec vocabulary: the NotReadyFault raised on HTTP 204. -/
def not_ready_fault (endpoint : String) (status_code : Nat) : SocketErr :=
  ⟨"Endpoint not available, make sure you are fully logged in, status code: "
     ++ toString status_code, endpoint⟩

/-- Spec vocabulary: the UnexpectedStatusFault raised on any other
non-200 status. -/
def unexpected_status_fault (endpoint : String) (status_code : Nat) : SocketErr :=
  ⟨"Unable to reach socket, status code: " ++ toString status_code, endpoint⟩

/-- The transport-level exceptions that requests.get with a configured
timeout can raise. In the requests exception hierarchy, ConnectionError
covers host-unreachable and also the connect phase of the timeout (its
subclass ConnectTimeout), while ReadTimeout — the timeout elapsing while
the response is read — subclasses Timeout only and is NOT a
ConnectionError. -/
inductive RequestsExc where
  | connectionError
  | readTimeout
deriving Repr, DecidableEq

/-- What escapes __do_get when the GET raises: either the SocketError it
raises itself, or an exception its except clause does not catch,
propagating uncaught out of __do_get (and through every accessor, whose
except clauses match only SocketError). -/
inductive EscapedExc where
  | socketError (e : SocketErr)
  | uncaughtReadTimeout
deriving Repr, DecidableEq

/-- Embedding of the try/except block of Socket.__do_get (lines 44-47)
at the exception level: the clause catches only ConnectionError and
re-raises it as the SocketError transport fault for the endpoint; a
raised ReadTimeout matches no clause and propagates unchanged, by the
hierarchy fact recorded at RequestsExc. -/
def do_get_on_exc (endpoint : String) : RequestsExc → EscapedExc
  | .connectionError => .socketError ⟨"Unable to reach socket", endpoint⟩
  | .readTimeout => .uncaughtReadTimeout

/-- Result of one accessor call: a normal return value, the explicit
None return (no-value sentinel), or an uncaught Python exception escaping
the accessor. -/
inductive AccessorResult (α : Type) where
  | value (a : α)
  | noValue
  | raise (msg : String)
deriving Repr, DecidableEq

/-- The worldPoint sub-object of the events snapshot. -/
structure WorldPoint where
  x : Int
  y : Int
  plane : Int
  regionX : Int
  regionY : Int
  regionID : Int
deriving Repr, DecidableEq

/-- The camera sub-object of the events snapshot. -/
structure Camera where
  yaw : Int
  pitch : Int
  x : Int
  y : Int
  z : Int
  x2 : Int
  y2 : Int
  z2 : Int
deriving Repr, DecidableEq

/-- The mouse sub-object of the events snapshot. -/
structure Mouse where
  x : Int
  y : Int
deriving Repr, DecidableEq

/-- The JSON object served by the events endpoint (schema-conforming, as
described by the module; the health field keeps its raw cur/max string
form because Socket.get_hitpoints parses it by splitting on a slash). -/
structure EventsSnapshot where
  health : String
  run_energy : Int
  animation : Int
  animation_pose : Int
  worldPoint : WorldPoint
  camera : Camera
  mouse : Mouse
  interacting_code : Int
  npc_name : Int
  npc_health : Int
  game_tick : Int
deriving Repr, DecidableEq

/-- One record of the stats table served by the stats endpoint. -/
structure StatRecord where
  stat : String
  level : Int
  xp : Int
  xp_gained : Int
deriving Repr, DecidableEq

/-- The stats endpoint body: a sequence of records whose first entry is a
non-stat header record. -/
abbrev StatsTable := List StatRecord

/-- One inventory slot record served by the inv endpoint. -/
structure InvSlot where
  id : Int
  quantity : Int
deriving Repr, DecidableEq

/-- One equipment slot record served by the equip endpoint. -/
structure EquipSlot where
  id : Int
deriving Repr, DecidableEq

/-- Python str.lower followed by str.capitalize, as applied to stat
names: lowercase every character, then uppercase the first. Implemented
over the character list (ASCII case mapping, which is what the stat
names use). -/
def pyNormalize (s : String) : String :=
  match s.toList.map Char.toLower with
  | [] => ""
  | c :: rest => String.mk (Char.toUpper c :: rest)

/-- Python int() applied to a digit string, as used on the two halves of
the health field; none when the text is not an optionally signed decimal
numeral (Python raises ValueError there). -/
def pyInt (l : List Char) : Option Int :=
  match l with
  | '-' :: rest =>
    if rest ≠ [] ∧ rest.all Char.isDigit then
      some (-(Int.ofNat (rest.foldl (fun acc c => acc * 10 + (c.toNat - 48)) 0)))
    else none
  | _ =>
    if l ≠ [] ∧ l.all Char.isDigit then
      some (Int.ofNat (l.foldl (fun acc c => acc * 10 + (c.toNat - 48)) 0))
    else none

/-- Python str.split applied to a separator character, over character
lists, as used by Socket.get_hitpoints on the health string. -/
def pySplit (sep : Char) (l : List Char) : List (List Char) :=
  match l with
  | [] => [[]]
  | c :: rest =>
    let r := pySplit sep rest
    if c = sep then [] :: r
    else
      match r with
      | [] => [[c]]
      | h :: t => (c :: h) :: t

/-- Embedding of Socket.get_hitpoints: on a fetch fault, print it and
return None; otherwise split the health string on a slash and coerce both
halves with int(). A split that does not yield exactly two parts or a
non-numeric part raises ValueError in the source, embedded as the raise
result. -/
def get_hitpoints (r : Except SocketErr EventsSnapshot) :
    AccessorResult (Int × Int) × List String :=
  match r with
  | .error e => (.noValue, [e.get_error])
  | .ok d =>
    match pySplit '/' d.health.toList with
    | [a, b] =>
      match pyInt a, pyInt b with
      | some cur_hp, some max_hp => (.value (cur_hp, max_hp), [])
      | _, _ => (.raise "ValueError", [])
    | _ => (.raise "ValueError", [])

/-- Embedding of Socket.run_energy. -/
def run_energy (r : Except SocketErr EventsSnapshot) :
    AccessorResult Int × List String :=
  match r with
  | .error e => (.noValue, [e.get_error])
  | .ok d => (.value d.run_energy, [])

/-- Embedding of Socket.get_animation. -/
def get_animation (r : Except SocketErr EventsSnapshot) :
    AccessorResult Int × List String :=
  match r with
  | .error e => (.noValue, [e.get_error])
  | .ok d => (.value d.animation, [])

/-- Embedding of Socket.get_animation_id (the animation pose field). -/
def get_animation_id (r : Except SocketErr EventsSnapshot) :
    AccessorResult Int × List String :=
  match r with
  | .error e => (.noValue, [e.get_error])
  | .ok d => (.value d.animation_pose, [])

/-- Embedding of Socket.get_is_player_idle: membership of the animation
pose in the idle-pose list. -/
def get_is_player_idle (r : Except SocketErr EventsSnapshot) :
    AccessorResult Bool × List String :=
  match r with
  | .error e => (.noValue, [e.get_error])
  | .ok d => (.value (List.contains [(808 : Int), 813] d.animation_pose), [])

/-- Embedding of Socket.get_game_tick. -/
def get_game_tick (r : Except SocketErr EventsSnapshot) :
    AccessorResult Int × List String :=
  match r with
  | .error e => (.noValue, [e.get_error])
  | .ok d => (.value d.game_tick, [])

/-- Embedding of Socket.get_player_position. -/
def get_player_position (r : Except SocketErr EventsSnapshot) :
    AccessorResult (Int × Int × Int) × List String :=
  match r with
  | .error e => (.noValue, [e.get_error])
  | .ok d => (.value (d.worldPoint.x, d.worldPoint.y, d.worldPoint.plane), [])

/-- Embedding of Socket.get_player_region_data. -/
def get_player_region_data (r : Except SocketErr EventsSnapshot) :
    AccessorResult (Int × Int × Int) × List String :=
  match r with
  | .error e => (.noValue, [e.get_error])
  | .ok d => (.value (d.worldPoint.regionX, d.worldPoint.regionY, d.worldPoint.regionID), [])

/-- Embedding of Socket.get_camera_position: pass-through of the camera
sub-object. -/
def get_camera_position (r : Except SocketErr EventsSnapshot) :
    AccessorResult Camera × List String :=
  match r with
  | .error e => (.noValue, [e.get_error])
  | .ok d => (.value d.camera, [])

/-- Embedding of Socket.get_mouse_position. -/
def get_mouse_position (r : Except SocketErr EventsSnapshot) :
    AccessorResult (Int × Int) × List String :=
  match r with
  | .error e => (.noValue, [e.get_error])
  | .ok d => (.value (d.mouse.x, d.mouse.y), [])

/-- Embedding of Socket.get_interaction_code. -/
def get_interaction_code (r : Except SocketErr EventsSnapshot) :
    AccessorResult Int × List String :=
  match r with
  | .error e => (.noValue, [e.get_error])
  | .ok d => (.value d.interacting_code, [])

/-- Embedding of Socket.get_npc_name (the source coerces the field with
int(), so the value is numeric). -/
def get_npc_name (r : Except SocketErr EventsSnapshot) :
    AccessorResult Int × List String :=
  match r with
  | .error e => (.noValue, [e.get_error])
  | .ok d => (.value d.npc_name, [])

/-- Embedding of Socket.get_npc_health. -/
def get_npc_health (r : Except SocketErr EventsSnapshot) :
    AccessorResult Int × List String :=
  match r with
  | .error e => (.noValue, [e.get_error])
  | .ok d => (.value d.npc_health, [])

/-- Embedding of Socket.get_stat_level: normalize the stat name, then on
a successful fetch scan the stats table skipping its first entry
(data[1:]) for the first record with that name and return its level;
when no record matches, the StopIteration branch prints the
invalid-stat-name message and returns None. -/
def get_stat_level (r : Except SocketErr StatsTable) (stat_name : String) :
    AccessorResult Int × List String :=
  let name := pyNormalize stat_name
  match r with
  | .error e => (.noValue, [e.get_error])
  | .ok data =>
    match (data.drop 1).find? (fun i => i.stat == name) with
    | some entry => (.value entry.level, [])
    | none => (.noValue, ["Invalid stat name: " ++ name])

/-- Embedding of Socket.get_stat_xp: same scan as get_stat_level,
returning the total xp field. -/
def get_stat_xp (r : Except SocketErr StatsTable) (stat_name : String) :
    AccessorResult Int × List String :=
  let name := pyNormalize stat_name
  match r with
  | .error e => (.noValue, [e.get_error])
  | .ok data =>
    match (data.drop 1).find? (fun i => i.stat == name) with
    | some entry => (.value entry.xp, [])
    | none => (.noValue, ["Invalid stat name: " ++ name])

/-- Embedding of Socket.get_stat_xp_gained: same scan, returning the
xp-gained field. -/
def get_stat_xp_gained (r : Except SocketErr StatsTable) (stat_name : String) :
    AccessorResult Int × List String :=
  let name := pyNormalize stat_name
  match r with
  | .error e => (.noValue, [e.get_error])
  | .ok data =>
    match (data.drop 1).find? (fun i => i.stat == name) with
    | some entry => (.value entry.xp_gained, [])
    | none => (.noValue, ["Invalid stat name: " ++ name])

/-- The in-loop xp extraction of Socket.wait_til_gained_xp: first record
of data[1:] whose stat name matches, projected to its total xp; none
models the StopIteration that the loop does not catch. -/
def xp_of (data : StatsTable) (name : String) : Option Int :=
  ((data.drop 1).find? (fun i => i.stat == name)).map (fun i => i.xp)

/-- Embedding of Socket.get_if_item_in_inv: true when any slot record id
equals the requested item id. -/
def get_if_item_in_inv (r : Except SocketErr (List InvSlot)) (item_id : Int) :
    AccessorResult Bool × List String :=
  match r with
  | .error e => (.noValue, [e.get_error])
  | .ok data => (.value (data.any (fun inventory_slot => inventory_slot.id == item_id)), [])

/-- Embedding of Socket.find_item_in_inv: the list comprehension over
enumerate(data) keeping matching slots as (index, quantity) pairs. -/
def find_item_in_inv (r : Except SocketErr (List InvSlot)) (item_id : Int) :
    AccessorResult (List (Nat × Int)) × List String :=
  match r with
  | .error e => (.noValue, [e.get_error])
  | .ok data =>
    (.value ((data.enum.filter (fun p => p.2.id == item_id)).map (fun p => (p.1, p.2.quantity))), [])

/-- Embedding of Socket.get_player_equipment: the ids of the equipment
records, in order. -/
def get_player_equipment (r : Except SocketErr (List EquipSlot)) :
    AccessorResult (List Int) × List String :=
  match r with
  | .error e => (.noValue, [e.get_error])
  | .ok data => (.value (data.map (fun equipment_id => equipment_id.id)), [])

/-- How Socket.wait_til_gained_xp exits (every exit maps back to Python:
success returns the new xp, failed and timedOut and startFailed return
None, raisedStopIteration is the uncaught StopIteration of the in-loop
next() when the stat name is absent from a polled table). -/
inductive WaitOutcome where
  | success (xp : Int)
  | failed
  | timedOut
  | startFailed
  | raisedStopIteration
deriving Repr, DecidableEq

/-- The while loop of Socket.wait_til_gained_xp. Each trace entry pairs
the time.time() reading taken by the while condition of one iteration
with the fetch outcome that iteration would observe. The loop first
compares the time reading with stop_time and exits returning None when
the deadline has passed; only otherwise does it fetch. Result: the exit
taken, the number of fetches performed by the loop, and the printed log
lines. An exhausted trace stands for the deadline having passed (with
unbounded monotone time readings the loop always exits through one of
the listed cases). -/
def wait_loop (stat_name : String) (starting_xp : Int) (stop_time : Nat) :
    List (Nat × Except SocketErr StatsTable) → WaitOutcome × Nat × List String
  | [] => (.timedOut, 0, [])
  | (t, fetch) :: rest =>
    if t < stop_time then
      match fetch with
      | .error e => (.failed, 1, [e.get_error])
      | .ok data =>
        match xp_of data stat_name with
        | none => (.raisedStopIteration, 1, [])
        | some final_xp =>
          if final_xp > starting_xp then (.success final_xp, 1, [])
          else
            match wait_loop stat_name starting_xp stop_time rest with
            | (o, n, logs) => (o, n + 1, logs)
    else (.timedOut, 0, [])

/-- Embedding of Socket.wait_til_gained_xp: normalize the name, read the
starting xp through get_stat_xp from the initial fetch outcome (on
no-value, print the failure message and return None), set
stop_time = time.time() + wait_time from the entry time reading t0, and
run the polling loop over the trace of subsequent iterations. -/
def wait_til_gained_xp (stat_name0 : String) (wait_time : Nat)
    (start_fetch : Except SocketErr StatsTable) (t0 : Nat)
    (trace : List (Nat × Except SocketErr StatsTable)) :
    WaitOutcome × Nat × List String :=
  let stat_name := pyNormalize stat_name0
  match get_stat_xp start_fetch stat_name with
  | (.value starting_xp, _) =>
    wait_loop stat_name starting_xp (t0 + wait_time) trace
  | (_, logs) => (.startFailed, 0, logs ++ ["Failed to get starting xp."])

/-- Observable outcome of Socket.__test_endpoints: the returned boolean,
the endpoints actually fetched (in order), and the printed log lines. -/
structure TestResult where
  ok : Bool
  fetched : List String
  logs : List String
deriving Repr, DecidableEq

/-- The loop of Socket.__test_endpoints over a list of endpoints: fetch
each in turn; on the first SocketError, print the fault and the
not-working message and return False at once; return True when every
fetch succeeded. -/
def test_endpoints_aux {α : Type} (env : String → HttpOutcome α) :
    List String → TestResult
  | [] => ⟨true, [], []⟩
  | ep :: rest =>
    match do_get ep (env ep) with
    | .error e =>
      ⟨false, [ep], [e.get_error, "Endpoint \x27" ++ ep ++ "\x27 is not working."]⟩
    | .ok _ =>
      let r := test_endpoints_aux env rest
      ⟨r.ok, ep :: r.fetched, r.logs⟩

/-- Embedding of Socket.__test_endpoints: the loop above over the four
configured endpoints, against an environment assigning each endpoint its
HTTP outcome. -/
def test_endpoints {α : Type} (env : String → HttpOutcome α) : TestResult :=
  test_endpoints_aux env endpoints

/-- Modelled from the words of the spec for findItemInInventory: the
(slot index, quantity) pairs of all slots whose id matches, indices taken
over the positions of the inventory list, in slot order. Stated
independently of the enumerate-based comprehension of the source, for
comparison with it. -/
def find_item_spec (data : List InvSlot) (item_id : Int) : List (Nat × Int) :=
  (List.range data.length).filterMap (fun i =>
    match data.get? i with
    | some s => if s.id = item_id then some (i, s.quantity) else none
    | none => none)

/-- C1: for each of the four endpoint identifiers, fetch of an HTTP 200
response returns its parsed JSON body unchanged; a 204 response yields
the NotReadyFault, any other non-200 status the UnexpectedStatusFault
naming the status code, and a connection failure the TransportFault, and
each fault carries the failing endpoint identifier. -/
theorem do_get_contract {α : Type} (ep : String) (_hep : ep ∈ endpoints)
    (body : α) (status_code : Nat)
    (h200 : status_code ≠ 200) (h204 : status_code ≠ 204) :
    do_get ep (HttpOutcome.response 200 body) = Except.ok body ∧
    do_get ep (HttpOutcome.response 204 body) = Except.error (not_ready_fault ep 204) ∧
    do_get ep (HttpOutcome.response status_code body)
      = Except.error (unexpected_status_fault ep status_code) ∧
    do_get (α := α) ep HttpOutcome.connectionFailure
      = Except.error (transport_fault ep) ∧
    (not_ready_fault ep 204).endpoint = ep ∧
    (unexpected_status_fault ep status_code).endpoint = ep ∧
    (transport_fault ep).endpoint = ep := by
  refine ⟨rfl, rfl, ?_, rfl, rfl, rfl, rfl⟩
  simp [do_get, h200, h204, unexpected_status_fault]

/-- Witness for C1: the inv endpoint with a concrete numeric body, at
status 500 and at status 200. -/
theorem do_get_contract_witness :
    do_get inv_endpoint (HttpOutcome.response 500 (37 : Int))
      = Except.error (unexpected_status_fault inv_endpoint 500) ∧
    do_get inv_endpoint (HttpOutcome.response 200 (37 : Int)) = Except.ok 37 := by
  have h := do_get_contract (α := Int) inv_endpoint (by decide) 37 500 (by decide) (by decide)
  exact ⟨h.2.2.1, h.1⟩

/-- Counterexample for C4 as stated: the configured timeout elapsing
during the response read raises ReadTimeout, which the except clause of
fetch does not catch, so at a concrete endpoint it escapes uncaught
instead of being surfaced as the TransportFault. -/
theorem transport_timeout_cex :
    do_get_on_exc "events" RequestsExc.readTimeout
      = EscapedExc.uncaughtReadTimeout ∧
    do_get_on_exc "events" RequestsExc.readTimeout
      ≠ EscapedExc.socketError (transport_fault "events") := by
  decide

/-- C4 (amended): for every endpoint, a transport failure raising the
requests ConnectionError — host unreachable, or the connect phase of the
configured timeout elapsing — is surfaced by fetch as the TransportFault
with message Unable to reach socket carrying the failing endpoint; but
the configured timeout elapsing during the response read raises
ReadTimeout, which is not a ConnectionError and escapes fetch
uncaught. -/
theorem transport_exc_dispatch {α : Type} (ep : String) :
    do_get (α := α) ep HttpOutcome.connectionFailure
      = Except.error (transport_fault ep) ∧
    do_get_on_exc ep RequestsExc.connectionError
      = EscapedExc.socketError (transport_fault ep) ∧
    do_get_on_exc ep RequestsExc.readTimeout = EscapedExc.uncaughtReadTimeout ∧
    (transport_fault ep).error_message = "Unable to reach socket" ∧
    (transport_fault ep).endpoint = ep :=
  ⟨rfl, rfl, rfl, rfl, rfl⟩

/-- C3: every accessor of the public catalog converts a fetch fault into
the logged no-value result instead of raising: for every fault value the
accessor returns the no-value sentinel together with the printed fault
message, and the fetch performed inside the wait_til_gained_xp polling
loop is likewise caught (the initial starting-xp fetch prints the fault
and the starting-xp failure message, an in-loop fetch fault exits the
loop with None after printing the fault). -/
theorem accessors_catch_fetch_faults (e : SocketErr) :
    get_hitpoints (.error e) = (.noValue, [e.get_error]) ∧
    run_energy (.error e) = (.noValue, [e.get_error]) ∧
    get_animation (.error e) = (.noValue, [e.get_error]) ∧
    get_animation_id (.error e) = (.noValue, [e.get_error]) ∧
    get_is_player_idle (.error e) = (.noValue, [e.get_error]) ∧
    (∀ name, get_stat_level (.error e) name = (.noValue, [e.get_error])) ∧
    (∀ name, get_stat_xp (.error e) name = (.noValue, [e.get_error])) ∧
    (∀ name, get_stat_xp_gained (.error e) name = (.noValue, [e.get_error])) ∧
    get_game_tick (.error e) = (.noValue, [e.get_error]) ∧
    get_player_position (.error e) = (.noValue, [e.get_error]) ∧
    get_player_region_data (.error e) = (.noValue, [e.get_error]) ∧
    get_camera_position (.error e) = (.noValue, [e.get_error]) ∧
    get_mouse_position (.error e) = (.noValue, [e.get_error]) ∧
    get_interaction_code (.error e) = (.noValue, [e.get_error]) ∧
    get_npc_name (.error e) = (.noValue, [e.get_error]) ∧
    get_npc_health (.error e) = (.noValue, [e.get_error]) ∧
    (∀ item_id, get_if_item_in_inv (.error e) item_id = (.noValue, [e.get_error])) ∧
    (∀ item_id, find_item_in_inv (.error e) item_id = (.noValue, [e.get_error])) ∧
    get_player_equipment (.error e) = (.noValue, [e.get_error]) ∧
    (∀ name wait_time t0 trace,
       wait_til_gained_xp name wait_time (.error e) t0 trace
         = (.startFailed, 0, [e.get_error, "Failed to get starting xp."])) ∧
    (∀ name s stop t rest, t < stop →
       wait_loop name s stop ((t, .error e) :: rest) = (.failed, 1, [e.get_error])) := by
  refine ⟨rfl, rfl, rfl, rfl, rfl, fun _ => rfl, fun _ => rfl, fun _ => rfl, rfl, rfl,
    rfl, rfl, rfl, rfl, rfl, rfl, fun _ => rfl, fun _ => rfl, rfl,
    fun _ _ _ _ => rfl, fun name s stop t rest h => ?_⟩
  simp [wait_loop, h]

/-- Witness for C3 at a concrete fault: the run-energy accessor and one
in-loop fetch fault of the polling loop. -/
theorem accessors_catch_fetch_faults_witness :
    run_energy (Except.error ⟨"Unable to reach socket", "events"⟩)
      = (.noValue, [SocketErr.get_error ⟨"Unable to reach socket", "events"⟩]) ∧
    wait_loop "Attack" 100 10 [(0, Except.error ⟨"Unable to reach socket", "stats"⟩)]
      = (.failed, 1, [SocketErr.get_error ⟨"Unable to reach socket", "stats"⟩]) := by
  obtain ⟨-, h1, -⟩ := accessors_catch_fetch_faults ⟨"Unable to reach socket", "events"⟩
  obtain ⟨-, -, -, -, -, -, -, -, -, -, -, -, -, -, -, -, -, -, -, -, h2⟩ :=
    accessors_catch_fetch_faults ⟨"Unable to reach socket", "stats"⟩
  exact ⟨h1, h2 "Attack" 100 10 0 [] (by decide)⟩

/-- The boolean returned by the __test_endpoints loop is true exactly
when every endpoint of the list fetches successfully. -/
lemma test_aux_ok_iff {α : Type} (env : String → HttpOutcome α) :
    ∀ l, (test_endpoints_aux env l).ok = true
      ↔ ∀ ep ∈ l, ∃ b, do_get ep (env ep) = Except.ok b := by
  intro l
  induction l with
  | nil => simp [test_endpoints_aux]
  | cons ep rest ih =>
    rcases h : do_get ep (env ep) with e | b <;>
      simp [test_endpoints_aux, h, ih, List.forall_mem_cons]

/-- When the __test_endpoints loop returns true it fetched every
endpoint of the list, in order. -/
lemma test_aux_fetched_of_ok {α : Type} (env : String → HttpOutcome α) :
    ∀ l, (test_endpoints_aux env l).ok = true → (test_endpoints_aux env l).fetched = l := by
  intro l
  induction l with
  | nil => intro _; rfl
  | cons ep rest ih =>
    rcases h : do_get ep (env ep) with e | b <;> simp [test_endpoints_aux, h]
    exact ih

/-- When the __test_endpoints loop returns false, the list splits at the
first failing endpoint: every earlier endpoint fetched successfully, the
failing one was fetched and its fault logged, and nothing after it was
fetched. -/
lemma test_aux_fail {α : Type} (env : String → HttpOutcome α) :
    ∀ l, (test_endpoints_aux env l).ok = false →
      ∃ pre ep suf e, l = pre ++ ep :: suf ∧
        (∀ p ∈ pre, ∃ b, do_get p (env p) = Except.ok b) ∧
        do_get ep (env ep) = Except.error e ∧
        (test_endpoints_aux env l).fetched = pre ++ [ep] ∧
        (test_endpoints_aux env l).logs
          = [e.get_error, "Endpoint \x27" ++ ep ++ "\x27 is not working."] := by
  intro l
  induction l with
  | nil => intro h; exact absurd h (by simp [test_endpoints_aux])
  | cons ep rest ih =>
    intro hfail
    rcases h : do_get ep (env ep) with e | b
    · exact ⟨[], ep, rest, e, rfl, by simp, h,
        by simp [test_endpoints_aux, h], by simp [test_endpoints_aux, h]⟩
    · have hrest : (test_endpoints_aux env rest).ok = false := by
        simpa [test_endpoints_aux, h] using hfail
      obtain ⟨pre, ep', suf, e, hsplit, hpre, herr, hfetched, hlogs⟩ := ih hrest
      refine ⟨ep :: pre, ep', suf, e, by simp [hsplit], ?_, herr,
        by simp [test_endpoints_aux, h, hfetched], by simp [test_endpoints_aux, h, hlogs]⟩
      intro p hp
      rcases List.mem_cons.mp hp with rfl | hp
      · exact ⟨b, h⟩
      · exact hpre p hp

/-- C5 (amended): verifyAllEndpoints fetches the four endpoints in
order, stopping at the first fault: it returns true if and only if all
four fetches succeed, in which case all four were fetched; when it
returns false, the endpoints split at the first failing one, whose fault
is the one logged, and the endpoints after it are not fetched. -/
theorem test_endpoints_spec {α : Type} (env : String → HttpOutcome α) :
    ((test_endpoints env).ok = true
       ↔ ∀ ep ∈ endpoints, ∃ b, do_get ep (env ep) = Except.ok b) ∧
    ((test_endpoints env).ok = true → (test_endpoints env).fetched = endpoints) ∧
    ((test_endpoints env).ok = false →
      ∃ pre ep suf e, endpoints = pre ++ ep :: suf ∧
        (∀ p ∈ pre, ∃ b, do_get p (env p) = Except.ok b) ∧
        do_get ep (env ep) = Except.error e ∧
        (test_endpoints env).fetched = pre ++ [ep] ∧
        (test_endpoints env).logs
          = [e.get_error, "Endpoint \x27" ++ ep ++ "\x27 is not working."]) :=
  ⟨test_aux_ok_iff env endpoints, test_aux_fetched_of_ok env endpoints,
    test_aux_fail env endpoints⟩

/-- Witness for C5: an all-succeeding environment returns true, and an
all-failing environment exhibits the failure split. -/
theorem test_endpoints_spec_witness :
    (test_endpoints (fun _ => HttpOutcome.response 200 (0 : Int))).ok = true ∧
    (∃ pre ep suf e, endpoints = pre ++ ep :: suf ∧
      (∀ p ∈ pre, ∃ b,
        do_get p ((fun _ => (HttpOutcome.connectionFailure : HttpOutcome Int)) p)
          = Except.ok b) ∧
      do_get ep ((fun _ => (HttpOutcome.connectionFailure : HttpOutcome Int)) ep)
        = Except.error e ∧
      (test_endpoints (fun _ => (HttpOutcome.connectionFailure : HttpOutcome Int))).fetched
        = pre ++ [ep] ∧
      (test_endpoints (fun _ => (HttpOutcome.connectionFailure : HttpOutcome Int))).logs
        = [e.get_error, "Endpoint \x27" ++ ep ++ "\x27 is not working."]) :=
  ⟨(test_endpoints_spec (fun _ => HttpOutcome.response 200 (0 : Int))).1.mpr
      (fun ep _ => ⟨0, rfl⟩),
    (test_endpoints_spec (fun _ => (HttpOutcome.connectionFailure : HttpOutcome Int))).2.2
      (by decide)⟩

/-- Counterexample for C5 as stated: against an environment where every
connection fails, only the first endpoint is ever fetched, so fetch is
not called once per configured endpoint. -/
theorem test_endpoints_cex :
    (test_endpoints (fun _ => (HttpOutcome.connectionFailure : HttpOutcome Int))).ok
      = false ∧
    (test_endpoints (fun _ => (HttpOutcome.connectionFailure : HttpOutcome Int))).fetched
      = ["inv"] ∧
    ¬ ((test_endpoints
        (fun _ => (HttpOutcome.connectionFailure : HttpOutcome Int))).fetched
          = endpoints) := by
  decide

/-- Helper: indexed accumulation of the matching inventory slots
starting at position k; both the enumerate-based comprehension of the
source and the range-based specification reduce to it. -/
def find_aux (item_id : Int) (k : Nat) : List InvSlot → List (Nat × Int)
  | [] => []
  | s :: rest =>
    if s.id = item_id then (k, s.quantity) :: find_aux item_id (k + 1) rest
    else find_aux item_id (k + 1) rest

/-- The enumerate-filter-project comprehension equals the indexed
accumulation. -/
lemma enum_filter_eq_find_aux (item_id : Int) :
    ∀ (data : List InvSlot) (k : Nat),
      ((List.enumFrom k data).filter (fun p => p.2.id == item_id)).map
        (fun p => (p.1, p.2.quantity)) = find_aux item_id k data := by
  intro data
  induction data with
  | nil => intro k; rfl
  | cons s rest ih =>
    intro k
    by_cases h : s.id = item_id <;>
      simp [List.enumFrom, List.filter_cons, find_aux, h, ih]

/-- The range-based specification equals the indexed accumulation,
generalized over the index offset. -/
lemma range_filterMap_eq_find_aux (item_id : Int) :
    ∀ (data : List InvSlot) (k : Nat),
      (List.range data.length).filterMap (fun i =>
        match data.get? i with
        | some s => if s.id = item_id then some (k + i, s.quantity) else none
        | none => none) = find_aux item_id k data := by
  intro data
  induction data with
  | nil => intro k; rfl
  | cons s rest ih =>
    intro k
    rw [List.length_cons, List.range_succ_eq_map, List.filterMap_cons,
      List.filterMap_map]
    have htail :
        List.filterMap
          ((fun i =>
            match (s :: rest).get? i with
            | some s0 => if s0.id = item_id then some (k + i, s0.quantity) else none
            | none => none) ∘ Nat.succ) (List.range rest.length)
          = find_aux item_id (k + 1) rest := by
      rw [← ih (k + 1)]
      have hfun :
          ((fun i =>
            match (s :: rest).get? i with
            | some s0 => if s0.id = item_id then some (k + i, s0.quantity) else none
            | none => none) ∘ Nat.succ)
            = (fun i =>
              match rest.get? i with
              | some s0 => if s0.id = item_id then some (k + 1 + i, s0.quantity) else none
              | none => none) := by
        funext i
        have hidx : k + Nat.succ i = k + 1 + i := by omega
        simp only [Function.comp_apply, List.get?_cons_succ, hidx]
      rw [hfun]
    rw [htail]
    simp only [List.get?_cons_zero]
    by_cases h : s.id = item_id <;> simp [find_aux, h]

/-- The indexed accumulation is empty exactly when no slot matches. -/
lemma find_aux_eq_nil_iff (item_id : Int) :
    ∀ (data : List InvSlot) (k : Nat),
      find_aux item_id k data = [] ↔ ∀ s ∈ data, s.id ≠ item_id := by
  intro data
  induction data with
  | nil => intro k; simp [find_aux]
  | cons s rest ih =>
    intro k
    by_cases h : s.id = item_id <;>
      simp [find_aux, h, ih (k + 1)]

/-- C6: itemInInventory is true exactly when some slot record id matches,
and findItemInInventory returns exactly the (slot index, quantity) pairs
of the matching slots in slot order as the range-based specification
states, the empty list when no slot matches. -/
theorem inventory_search_spec (data : List InvSlot) (item_id : Int) :
    ((get_if_item_in_inv (Except.ok data) item_id).1 = .value true
       ↔ ∃ s ∈ data, s.id = item_id) ∧
    (find_item_in_inv (Except.ok data) item_id).1
      = .value (find_item_spec data item_id) ∧
    ((∀ s ∈ data, s.id ≠ item_id) →
      (find_item_in_inv (Except.ok data) item_id).1 = .value []) := by
  have hfind : (find_item_in_inv (Except.ok data) item_id).1
      = .value (find_aux item_id 0 data) := by
    simp only [find_item_in_inv, List.enum]
    rw [enum_filter_eq_find_aux]
  have hspec : find_item_spec data item_id = find_aux item_id 0 data := by
    rw [find_item_spec, ← range_filterMap_eq_find_aux item_id data 0]
    apply List.filterMap_congr
    intro i _
    simp [Nat.zero_add]
  refine ⟨?_, by rw [hfind, hspec], ?_⟩
  · simp [get_if_item_in_inv, List.any_eq_true]
  · intro hnone
    rw [hfind, (find_aux_eq_nil_iff item_id data 0).mpr hnone]

/-- Witness for C6: a concrete inventory with two matching slots; the
no-match clause applied at an absent id. -/
theorem inventory_search_spec_witness :
    ((get_if_item_in_inv
        (Except.ok [⟨995, 1000⟩, ⟨554, 12⟩, ⟨995, 3⟩]) 995).1 = .value true
       ↔ ∃ s ∈ ([⟨995, 1000⟩, ⟨554, 12⟩, ⟨995, 3⟩] : List InvSlot), s.id = 995) ∧
    (∀ s ∈ ([⟨995, 1000⟩, ⟨554, 12⟩, ⟨995, 3⟩] : List InvSlot), s.id ≠ 4151) ∧
    (find_item_in_inv (Except.ok [⟨995, 1000⟩, ⟨554, 12⟩, ⟨995, 3⟩]) 4151).1
      = .value [] :=
  ⟨(inventory_search_spec [⟨995, 1000⟩, ⟨554, 12⟩, ⟨995, 3⟩] 995).1, by decide,
    (inventory_search_spec [⟨995, 1000⟩, ⟨554, 12⟩, ⟨995, 3⟩] 4151).2.2 (by decide)⟩

/-- C10: the membership test and the search agree on identical inventory
data: itemInInventory returns true exactly when findItemInInventory
returns a non-empty list. -/
theorem inv_membership_agrees_with_find (data : List InvSlot) (item_id : Int) :
    (get_if_item_in_inv (Except.ok data) item_id).1 = .value true
      ↔ (find_item_in_inv (Except.ok data) item_id).1 ≠ .value [] := by
  have hfind : (find_item_in_inv (Except.ok data) item_id).1
      = .value (find_aux item_id 0 data) := by
    simp only [find_item_in_inv, List.enum]
    rw [enum_filter_eq_find_aux]
  rw [hfind]
  constructor
  · intro h hnil
    have hmem : ∃ s ∈ data, s.id = item_id := by
      simpa [get_if_item_in_inv, List.any_eq_true] using h
    obtain ⟨s, hs, hid⟩ := hmem
    have : find_aux item_id 0 data = [] := by
      simpa using hnil
    exact (find_aux_eq_nil_iff item_id data 0).mp this s hs hid
  · intro h
    by_contra hfalse
    apply h
    have : ¬ ∃ s ∈ data, s.id = item_id := by
      intro hmem
      apply hfalse
      simpa [get_if_item_in_inv, List.any_eq_true] using hmem
    have hnone : ∀ s ∈ data, s.id ≠ item_id := by
      intro s hs hid
      exact this ⟨s, hs, hid⟩
    rw [(find_aux_eq_nil_iff item_id data 0).mpr hnone]

/-- C7: statLevel is case-insensitive in the stat name, because the name
is normalized (lowercased then first letter capitalized) before the
table scan: two names whose characters agree up to letter case give
identical results on every fetch outcome. -/
theorem get_stat_level_case_insensitive (r : Except SocketErr StatsTable)
    (s t : String)
    (h : s.toList.map Char.toLower = t.toList.map Char.toLower) :
    get_stat_level r s = get_stat_level r t := by
  have hn : pyNormalize s = pyNormalize t := by
    unfold pyNormalize
    rw [h]
  simp only [get_stat_level, hn]

/-- Witness for C7: the names attack and ATTACK on a concrete table. -/
theorem get_stat_level_case_insensitive_witness :
    ("attack".toList.map Char.toLower = "ATTACK".toList.map Char.toLower) ∧
    get_stat_level
        (Except.ok [⟨"Skills", 0, 0, 0⟩, ⟨"Attack", 50, 101333, 7⟩]) "attack"
      = get_stat_level
        (Except.ok [⟨"Skills", 0, 0, 0⟩, ⟨"Attack", 50, 101333, 7⟩]) "ATTACK" :=
  ⟨by decide, get_stat_level_case_insensitive _ "attack" "ATTACK" (by decide)⟩

/-- C8: every stat lookup scans data[1:], so the first entry of the
stats table is never consulted: the result does not depend on the head
record, and even a head record whose stat name matches yields the
invalid-stat-name no-value result when no tail record matches. -/
theorem stat_lookups_skip_header :
    (∀ (r r' : StatRecord) (t : StatsTable) (name : String),
       get_stat_level (Except.ok (r :: t)) name
         = get_stat_level (Except.ok (r' :: t)) name ∧
       get_stat_xp (Except.ok (r :: t)) name
         = get_stat_xp (Except.ok (r' :: t)) name ∧
       get_stat_xp_gained (Except.ok (r :: t)) name
         = get_stat_xp_gained (Except.ok (r' :: t)) name) ∧
    (∀ (r : StatRecord) (t : StatsTable) (name : String),
       r.stat = pyNormalize name →
       (∀ entry ∈ t, entry.stat ≠ pyNormalize name) →
       get_stat_level (Except.ok (r :: t)) name
         = (.noValue, ["Invalid stat name: " ++ pyNormalize name]) ∧
       get_stat_xp (Except.ok (r :: t)) name
         = (.noValue, ["Invalid stat name: " ++ pyNormalize name]) ∧
       get_stat_xp_gained (Except.ok (r :: t)) name
         = (.noValue, ["Invalid stat name: " ++ pyNormalize name])) := by
  constructor
  · intro r r' t name
    exact ⟨rfl, rfl, rfl⟩
  · intro r t name _ hnone
    have hf : t.find? (fun i => i.stat == pyNormalize name) = none :=
      List.find?_eq_none.mpr (fun x hx => by simpa using hnone x hx)
    refine ⟨?_, ?_, ?_⟩ <;>
      simp [get_stat_level, get_stat_xp, get_stat_xp_gained, hf]

/-- Witness for C8: a single-record table whose only record is the
header and matches the requested name, yet the lookup reports an invalid
stat name. -/
theorem stat_lookups_skip_header_witness :
    (⟨"Attack", 99, 200, 10⟩ : StatRecord).stat = pyNormalize "attack" ∧
    get_stat_level (Except.ok [⟨"Attack", 99, 200, 10⟩]) "attack"
      = (.noValue, ["Invalid stat name: " ++ pyNormalize "attack"]) := by
  have h := stat_lookups_skip_header.2 ⟨"Attack", 99, 200, 10⟩ [] "attack"
    (by decide) (by simp)
  exact ⟨by decide, h.1⟩

/-- C9: when no record after the header matches the normalized requested
name, statLevel returns the no-value result and logs the
invalid-stat-name lookup fault; in the embedding the lookup is total, so
nothing is raised to the caller. -/
theorem get_stat_level_invalid_name (data : StatsTable) (name : String)
    (h : ∀ entry ∈ data.drop 1, entry.stat ≠ pyNormalize name) :
    get_stat_level (Except.ok data) name
      = (.noValue, ["Invalid stat name: " ++ pyNormalize name]) := by
  have hf : (data.drop 1).find? (fun i => i.stat == pyNormalize name) = none :=
    List.find?_eq_none.mpr (fun x hx => by simpa using h x hx)
  rw [List.drop_one] at hf
  simp [get_stat_level, hf]

/-- Witness for C9: a nonexistent stat name against a concrete table. -/
theorem get_stat_level_invalid_name_witness :
    (∀ entry ∈ (([⟨"Skills", 0, 0, 0⟩, ⟨"Attack", 50, 100, 5⟩] : StatsTable)).drop 1,
       entry.stat ≠ pyNormalize "nonexistent_stat") ∧
    get_stat_level (Except.ok [⟨"Skills", 0, 0, 0⟩, ⟨"Attack", 50, 100, 5⟩])
        "nonexistent_stat"
      = (.noValue, ["Invalid stat name: " ++ pyNormalize "nonexistent_stat"]) :=
  ⟨by decide, get_stat_level_invalid_name _ "nonexistent_stat" (by decide)⟩

/-- A polling-loop iteration that completes without a gain: its time
reading is before the deadline, its fetch succeeds, and the extracted xp
does not exceed the starting xp. -/
def no_gain_step (stat_name : String) (starting_xp : Int) (stop_time : Nat)
    (p : Nat × Except SocketErr StatsTable) : Prop :=
  p.1 < stop_time ∧
    ∃ tbl x, p.2 = Except.ok tbl ∧ xp_of tbl stat_name = some x ∧ x ≤ starting_xp

/-- One no-gain iteration passes control to the rest of the trace,
counting one more poll. -/
lemma wait_loop_cons_no_gain (stat_name : String) (starting_xp : Int)
    (stop_time t : Nat) (tbl : StatsTable) (x : Int)
    (ht : t < stop_time) (hxp : xp_of tbl stat_name = some x)
    (hle : x ≤ starting_xp) (rest : List (Nat × Except SocketErr StatsTable)) :
    wait_loop stat_name starting_xp stop_time ((t, Except.ok tbl) :: rest)
      = ((wait_loop stat_name starting_xp stop_time rest).1,
         (wait_loop stat_name starting_xp stop_time rest).2.1 + 1,
         (wait_loop stat_name starting_xp stop_time rest).2.2) := by
  have hng : ¬ x > starting_xp := by omega
  rcases hw : wait_loop stat_name starting_xp stop_time rest with ⟨o, n, logs⟩
  simp [wait_loop, ht, hxp, hng, hw]

/-- Consuming a prefix of no-gain iterations leaves the loop result of
the remaining trace, adding the length of the prefix to the poll count. -/
lemma wait_loop_append (stat_name : String) (starting_xp : Int) (stop_time : Nat) :
    ∀ (pre : List (Nat × Except SocketErr StatsTable)),
      (∀ q ∈ pre, no_gain_step stat_name starting_xp stop_time q) →
      ∀ l, wait_loop stat_name starting_xp stop_time (pre ++ l)
        = ((wait_loop stat_name starting_xp stop_time l).1,
           (wait_loop stat_name starting_xp stop_time l).2.1 + pre.length,
           (wait_loop stat_name starting_xp stop_time l).2.2) := by
  intro pre
  induction pre with
  | nil =>
    intro _ l
    simp
  | cons q pre ih =>
    intro h l
    obtain ⟨t, f⟩ := q
    obtain ⟨ht, tbl, x, hq, hxp, hle⟩ := h (t, f) (List.mem_cons_self _ _)
    have hf : f = Except.ok tbl := hq
    subst hf
    have ht2 : t < stop_time := ht
    rw [List.cons_append,
      wait_loop_cons_no_gain stat_name starting_xp stop_time t tbl x ht2 hxp hle,
      ih (fun q hq => h q (List.mem_cons_of_mem _ hq)) l]
    simp [Nat.add_assoc]

/-- C2 (amended): after any number of completed polls without a gain,
wait_til_gained_xp with a successful starting-xp fetch behaves as
follows at the next loop iteration: the deadline t0 + waitTime is
checked first, and when the time reading has reached it the call returns
no-value as timed out with only the polls of the prefix performed — in
particular zero polls, as happens when waitTime is 0 — otherwise the
stats endpoint is polled once more and a fetch fault returns no-value
immediately while a polled xp strictly above the starting xp returns
that new xp. -/
theorem wait_til_gained_xp_spec (stat_name0 : String) (wait_time : Nat)
    (start_fetch : Except SocketErr StatsTable) (t0 : Nat) (starting_xp : Int)
    (hs : (get_stat_xp start_fetch (pyNormalize stat_name0)).1
            = AccessorResult.value starting_xp)
    (pre : List (Nat × Except SocketErr StatsTable))
    (hpre : ∀ q ∈ pre,
      no_gain_step (pyNormalize stat_name0) starting_xp (t0 + wait_time) q)
    (t : Nat) (f : Except SocketErr StatsTable)
    (rest : List (Nat × Except SocketErr StatsTable)) :
    (t0 + wait_time ≤ t →
       wait_til_gained_xp stat_name0 wait_time start_fetch t0 (pre ++ (t, f) :: rest)
         = (.timedOut, pre.length, [])) ∧
    (∀ e, t < t0 + wait_time → f = Except.error e →
       wait_til_gained_xp stat_name0 wait_time start_fetch t0 (pre ++ (t, f) :: rest)
         = (.failed, pre.length + 1, [e.get_error])) ∧
    (∀ tbl x, t < t0 + wait_time → f = Except.ok tbl →
       xp_of tbl (pyNormalize stat_name0) = some x → starting_xp < x →
       wait_til_gained_xp stat_name0 wait_time start_fetch t0 (pre ++ (t, f) :: rest)
         = (.success x, pre.length + 1, [])) := by
  have hunfold : ∀ trace,
      wait_til_gained_xp stat_name0 wait_time start_fetch t0 trace
        = wait_loop (pyNormalize stat_name0) starting_xp (t0 + wait_time) trace := by
    intro trace
    rcases hg : get_stat_xp start_fetch (pyNormalize stat_name0) with ⟨res, logs⟩
    rw [hg] at hs
    have hres : res = AccessorResult.value starting_xp := hs
    subst hres
    simp only [wait_til_gained_xp, hg]
  refine ⟨?_, ?_, ?_⟩
  · intro hle
    have hnt : ¬ t < t0 + wait_time := by omega
    rw [hunfold, wait_loop_append _ _ _ pre hpre ((t, f) :: rest)]
    simp [wait_loop, hnt]
  · intro e hlt hf
    subst hf
    rw [hunfold, wait_loop_append _ _ _ pre hpre ((t, Except.error e) :: rest)]
    simp [wait_loop, hlt, Nat.add_comm 1 pre.length]
  · intro tbl x hlt hf hxp hgt
    subst hf
    rw [hunfold, wait_loop_append _ _ _ pre hpre ((t, Except.ok tbl) :: rest)]
    simp [wait_loop, hlt, hxp, hgt, Nat.add_comm 1 pre.length]

/-- Concrete stats table with Attack total xp 100, for the
wait-until-xp-gained scenario. -/
def tbl100 : StatsTable := [⟨"Skills", 0, 0, 0⟩, ⟨"Attack", 50, 100, 5⟩]

/-- Concrete stats table with Attack total xp 150, for the
wait-until-xp-gained scenario. -/
def tbl150 : StatsTable := [⟨"Skills", 0, 0, 0⟩, ⟨"Attack", 50, 150, 55⟩]

/-- Witness for C2: the scenario of the spec — starting xp 100, two
polls reading 100, a third poll before the deadline reading 150 —
returns 150 after three polls. -/
theorem wait_til_gained_xp_spec_witness :
    wait_til_gained_xp "attack" 10 (Except.ok tbl100) 0
        ([(0, Except.ok tbl100), (1, Except.ok tbl100)]
          ++ (2, Except.ok tbl150) :: [])
      = (.success 150, 3, []) := by
  have h := (wait_til_gained_xp_spec "attack" 10 (Except.ok tbl100) 0 100
      (by decide)
      [(0, Except.ok tbl100), (1, Except.ok tbl100)]
      (by
        intro q hq
        fin_cases hq <;>
          exact ⟨by decide, tbl100, 100, rfl, by decide, by decide⟩)
      2 (Except.ok tbl150) []).2.2
      tbl150 150 (by decide) rfl (by decide) (by decide)
  exact h

/-- Counterexample for C2 as stated: with waitTime 0 the deadline check
precedes any poll, so the call returns no-value as timed out with zero
polls of the stats endpoint performed by the loop, even though a poll
outcome was available. -/
theorem wait_til_gained_xp_cex :
    wait_til_gained_xp "attack" 0 (Except.ok tbl100) 5 [(5, Except.ok tbl100)]
      = (.timedOut, 0, []) ∧
    ¬ (1 ≤ (wait_til_gained_xp "attack" 0 (Except.ok tbl100) 5
              [(5, Except.ok tbl100)]).2.1) := by
  decide

end Socket
